import Mathlib

/-!
Verification of the PoolFans SDK tokenizer (`src/PoolFansTokenizer.ts`,
`src/constants.ts`) against its natural-language specification.

The TypeScript source is shallowly embedded: addresses are `Nat`, byte
strings are `List Nat`, the two network collaborators (the factory's
`computeVaultAddress` read and `walletClient.writeContract`) are explicit
functional parameters returning `Except String`, and each method's network
activity is recorded as an explicit trace so that claims about "no network
access" and "one read per ..." can be stated.
-/

namespace PoolFans

/-- Reward token preference as written by the caller
(`types.ts`: `TokenType = 'Both' | 'Paired' | 'Clanker'`). -/
inductive TokenType where
  | Both
  | Paired
  | Clanker
  deriving DecidableEq, Repr

/-- Modelled from the spec: the `FeePreference` enum lives in the evolved
constants module that is absent from `src/`; spec section 3 gives the three
values Both, PairedAsset (Paired), ProjectAsset (Clanker), and
`tokenTypeToUint8` in the source maps them to 0, 1, 2. -/
inductive FeePreference where
  | Both
  | Paired
  | Clanker
  deriving DecidableEq, Repr

/-- `PoolFansTokenizer.tokenTypeToFeePreference` (PoolFansTokenizer.ts:745). -/
def tokenTypeToFeePreference : TokenType → FeePreference
  | TokenType.Both => FeePreference.Both
  | TokenType.Paired => FeePreference.Paired
  | TokenType.Clanker => FeePreference.Clanker

/-- `PoolFansTokenizer.tokenTypeToUint8` (PoolFansTokenizer.ts:732). -/
def tokenTypeToUint8 : TokenType → Nat
  | TokenType.Both => 0
  | TokenType.Paired => 1
  | TokenType.Clanker => 2

/-- A reward recipient (`types.ts`: `RewardRecipient`). -/
structure RewardRecipient where
  recipient : Nat
  admin : Nat
  bps : Int
  token : TokenType
  deriving DecidableEq, Repr

/-- A concentrated-liquidity position (`types.ts`: `PoolPosition`). -/
structure PoolPosition where
  tickLower : Int
  tickUpper : Int
  positionBps : Int
  deriving DecidableEq, Repr

/-- `CONTRACTS.V4_TOKENIZER` (constants.ts:9). -/
def CONTRACTS_V4_TOKENIZER : Nat := 0xea8127533f7be6d04b3dba8f0a496f2dcfd27728

/-- `CONTRACTS.V3_1_0_TOKENIZER` (constants.ts:12). -/
def CONTRACTS_V3_1_0_TOKENIZER : Nat := 0x50e2a7193c4ad03221f4b4e3e33cdf1a46671ced

/-- `CONTRACTS.WETH` (constants.ts:18). -/
def CONTRACTS_WETH : Nat := 0x4200000000000000000000000000000000000006

/-- `POOL_POSITIONS.Standard` (constants.ts:44). -/
def POOL_POSITIONS_Standard : List PoolPosition :=
  [⟨-230400, -214200, 1000⟩,
   ⟨-214200, -160000, 5000⟩,
   ⟨-160000, -120000, 1500⟩,
   ⟨-120000, -92100, 2000⟩,
   ⟨-92100, -60000, 500⟩]

/-- `options.rewards.recipients.reduce((sum, r) => sum + r.bps, 0)`
(PoolFansTokenizer.ts:92 and :193). -/
def totalBps (rs : List RewardRecipient) : Int :=
  rs.foldl (fun sum r => sum + r.bps) 0

/-- The validation failures `deployWithTokenizedFees` can produce before any
network access; `invalidSplit` carries the computed sum because the source
error message interpolates it
("Recipient bps must sum to 10000, got X", PoolFansTokenizer.ts:97), while
the too-many-recipients message is constant (PoolFansTokenizer.ts:105). -/
inductive DeployValidationError where
  | invalidSplit (got : Int)
  | tooManyRecipients
  deriving DecidableEq, Repr

/-- The exact source error-message strings (PoolFansTokenizer.ts:97,:105). -/
def deployValidationMessage : DeployValidationError → String
  | DeployValidationError.invalidSplit got =>
      "Recipient bps must sum to 10000, got " ++ toString got
  | DeployValidationError.tooManyRecipients =>
      "Maximum 7 reward recipients allowed"

/-- The recipient validation performed at the top of `deployWithTokenizedFees`
(PoolFansTokenizer.ts:92-107): first the bps-sum check, then the
recipient-count check, short-circuiting on the first failure. -/
def validateDeployRecipients (rs : List RewardRecipient) : Option DeployValidationError :=
  let t := totalBps rs
  if t ≠ 10000 then some (DeployValidationError.invalidSplit t)
  else if rs.length > 7 then some DeployValidationError.tooManyRecipients
  else none

/-- Claim C5: for every recipient list whose bps do not sum to 10000,
validation returns InvalidSplit carrying the exact computed sum; since the
statement holds for lists of every length (including length > 7), the sum
check is decided before the recipient-count check. -/
theorem validate_invalidSplit_first (rs : List RewardRecipient)
    (h : totalBps rs ≠ 10000) :
    validateDeployRecipients rs =
      some (DeployValidationError.invalidSplit (totalBps rs)) := by
  simp [validateDeployRecipients, h]

/-- Claim C5 witness: a single recipient with bps 5000 yields
InvalidSplit with computed sum 5000. -/
theorem validate_invalidSplit_first_witness :
    validateDeployRecipients [⟨1, 1, 5000, TokenType.Both⟩] =
      some (DeployValidationError.invalidSplit 5000) :=
  validate_invalidSplit_first [⟨1, 1, 5000, TokenType.Both⟩] (by decide)

/-- Eight recipients whose bps sum to 8000 (not 10000). -/
def rsEightBadSum : List RewardRecipient :=
  [⟨1, 1, 1000, TokenType.Both⟩, ⟨2, 2, 1000, TokenType.Both⟩,
   ⟨3, 3, 1000, TokenType.Both⟩, ⟨4, 4, 1000, TokenType.Both⟩,
   ⟨5, 5, 1000, TokenType.Both⟩, ⟨6, 6, 1000, TokenType.Both⟩,
   ⟨7, 7, 1000, TokenType.Both⟩, ⟨8, 8, 1000, TokenType.Both⟩]

/-- Claim C4 counterexample: a list of 8 recipients whose bps sum to 8000
is rejected with InvalidSplit, not TooManyRecipients — so validation of a
list with more than 7 entries does not return TooManyRecipients regardless
of bps values. -/
theorem validate_eight_bad_sum_counterexample :
    rsEightBadSum.length = 8 ∧
    validateDeployRecipients rsEightBadSum =
      some (DeployValidationError.invalidSplit 8000) ∧
    validateDeployRecipients rsEightBadSum ≠
      some DeployValidationError.tooManyRecipients := by
  decide

/-- Claim C4 (amended): for every recipient list with more than 7 entries
whose bps sum equals 10000, validation returns TooManyRecipients; when the
sum differs from 10000 the sum check fires first and InvalidSplit is
returned instead. -/
theorem validate_tooMany_when_sum_valid (rs : List RewardRecipient)
    (h7 : rs.length > 7) (hsum : totalBps rs = 10000) :
    validateDeployRecipients rs = some DeployValidationError.tooManyRecipients := by
  simp [validateDeployRecipients, hsum, h7]

/-- Eight recipients with bps 1250 each (sum 10000). -/
def rsEightGoodSum : List RewardRecipient :=
  [⟨1, 1, 1250, TokenType.Both⟩, ⟨2, 2, 1250, TokenType.Both⟩,
   ⟨3, 3, 1250, TokenType.Both⟩, ⟨4, 4, 1250, TokenType.Both⟩,
   ⟨5, 5, 1250, TokenType.Both⟩, ⟨6, 6, 1250, TokenType.Both⟩,
   ⟨7, 7, 1250, TokenType.Both⟩, ⟨8, 8, 1250, TokenType.Both⟩]

/-- Claim C4 witness: 8 recipients with bps 1250 each (sum 10000) are
rejected with TooManyRecipients. -/
theorem validate_tooMany_when_sum_valid_witness :
    validateDeployRecipients rsEightGoodSum =
      some DeployValidationError.tooManyRecipients :=
  validate_tooMany_when_sum_valid rsEightGoodSum (by decide) (by decide)

/-- The deployment intent fields `buildDeployParamsAsync` consumes that the
claims concern (`DeployWithTokenizedFeesOptions`, types.ts:114): the reward
recipients and the optional pool overrides.  Fields irrelevant to every claim
(name, symbol, image, metadata, context, vault, devBuy) are omitted. -/
structure DeployOptions where
  recipients : List RewardRecipient
  positions : Option (List PoolPosition)
  pairedToken : Option Nat
  tickIfToken0IsClanker : Option Int
  deriving DecidableEq, Repr

/-- JavaScript `x || d` on a possibly-absent number: an absent value and the
falsy value 0 both select the default. -/
def jsOrInt (x : Option Int) (d : Int) : Int :=
  match x with
  | none => d
  | some v => if v = 0 then d else v

/-- `options.pool?.positions || POOL_POSITIONS.Standard`
(PoolFansTokenizer.ts:467); arrays are always truthy in JavaScript, so an
explicitly supplied list is kept even when empty. -/
def effPositions (o : DeployOptions) : List PoolPosition :=
  o.positions.getD POOL_POSITIONS_Standard

/-- `options.pool?.pairedToken || CONTRACTS.WETH` (PoolFansTokenizer.ts:468). -/
def effPairedToken (o : DeployOptions) : Nat :=
  o.pairedToken.getD CONTRACTS_WETH

/-- `options.pool?.tickIfToken0IsClanker || -230400` (PoolFansTokenizer.ts:474),
the configured starting tick of the pool. -/
def startingTick (o : DeployOptions) : Int :=
  jsOrInt o.tickIfToken0IsClanker (-230400)

/-- The per-recipient fee preferences
(`options.rewards.recipients.map(r => this.tokenTypeToFeePreference(r.token))`,
PoolFansTokenizer.ts:480). -/
def recipientPrefs (o : DeployOptions) : List FeePreference :=
  o.recipients.map (fun r => tokenTypeToFeePreference r.token)

/-- One observable network operation of `deployWithTokenizedFees`: a
`computeVaultAddress` factory read (PoolFansTokenizer.ts:632) or the final
`tokenizeAndDeployV4Clanker` contract write (PoolFansTokenizer.ts:140). -/
inductive NetOp where
  | vaultRead (clankerToken pairedToken : Nat) (pref : FeePreference)
  | contractWrite
  deriving DecidableEq, Repr

/-- The locker configuration assembled by `buildDeployParamsAsync`
(PoolFansTokenizer.ts:524-533).  `lockerFeePreferences` is the payload the
source passes to `encodeLockerData` (PoolFansTokenizer.ts:522,:685). -/
structure LockerConfig where
  rewardAdmins : List Nat
  rewardRecipients : List Nat
  rewardBps : List Int
  tickLower : List Int
  tickUpper : List Int
  positionBps : List Int
  lockerFeePreferences : List FeePreference
  deriving DecidableEq, Repr

/-- The part of the structured deployment record the claims concern: the
locker configuration plus the separate `shareRecipients` argument
(PoolFansTokenizer.ts:558-569). -/
structure BuildOutput where
  lockerConfig : LockerConfig
  shareRecipients : List Nat
  deriving DecidableEq, Repr

/-- The sequential vault-resolution loop of `buildDeployParamsAsync`
(PoolFansTokenizer.ts:500-509): one factory read per element of the
fee-preference list, stopping at the first read failure.  Returns the
resolved addresses (or the first error) together with the trace of reads
actually issued. -/
def resolveVaults (vaultOf : Nat → Nat → FeePreference → Except String Nat)
    (clanker paired : Nat) :
    List FeePreference → Except String (List Nat) × List NetOp
  | [] => (Except.ok [], [])
  | p :: ps =>
    match vaultOf clanker paired p with
    | Except.error msg => (Except.error msg, [NetOp.vaultRead clanker paired p])
    | Except.ok a =>
      let rest := resolveVaults vaultOf clanker paired ps
      (rest.1.map (fun as => a :: as), NetOp.vaultRead clanker paired p :: rest.2)

/-- `PoolFansTokenizer.buildDeployParamsAsync` (PoolFansTokenizer.ts:394-571),
restricted to the fields the claims concern.  `vaultOf` abstracts the
factory's `computeVaultAddress` view function read on-chain by
`computeVaultAddressOnChain` (PoolFansTokenizer.ts:627); `clankerAddress`
stands for the CREATE2 address computed from the token config and the
freshly generated random salt (PoolFansTokenizer.ts:485).  As in the source:
`rewardAdmins` and `rewardRecipients` are both the resolved vault-address
list (PoolFansTokenizer.ts:512-513) while `shareRecipients` is the list of
end-user recipient addresses (PoolFansTokenizer.ts:559). -/
def buildDeployParamsAsync
    (vaultOf : Nat → Nat → FeePreference → Except String Nat)
    (clankerAddress : Nat) (o : DeployOptions) :
    Except String BuildOutput × List NetOp :=
  let positions := effPositions o
  let paired := effPairedToken o
  let feePreferences := recipientPrefs o
  match resolveVaults vaultOf clankerAddress paired feePreferences with
  | (Except.error msg, trace) => (Except.error msg, trace)
  | (Except.ok vaultAddresses, trace) =>
    (Except.ok
      { lockerConfig :=
        { rewardAdmins := vaultAddresses
          rewardRecipients := vaultAddresses
          rewardBps := o.recipients.map (fun r => r.bps)
          tickLower := positions.map (fun p => p.tickLower)
          tickUpper := positions.map (fun p => p.tickUpper)
          positionBps := positions.map (fun p => p.positionBps)
          lockerFeePreferences := feePreferences }
        shareRecipients := o.recipients.map (fun r => r.recipient) },
     trace)

/-- The failure channel of `deployWithTokenizedFees`: a validation error
detected locally, or an exception caught by the surrounding try/catch
(PoolFansTokenizer.ts:171-177). -/
inductive DeployError where
  | validation (e : DeployValidationError)
  | caught (msg : String)
  deriving DecidableEq, Repr

/-- The result of `deployWithTokenizedFees` as observable to the caller:
the `error` field of the returned result object, and the record that was
submitted via `writeContract` when no failure occurred. -/
structure DeployOutcome where
  error : Option DeployError
  submitted : Option BuildOutput
  deriving DecidableEq, Repr

/-- `PoolFansTokenizer.deployWithTokenizedFees` (PoolFansTokenizer.ts:87-178):
validate the recipients, build the deployment record (issuing the vault
reads), submit it, and catch every exception into the result's error field.
The second component is the trace of network operations performed. -/
def deployWithTokenizedFees
    (vaultOf : Nat → Nat → FeePreference → Except String Nat)
    (write : Except String Nat)
    (clankerAddress : Nat) (o : DeployOptions) :
    DeployOutcome × List NetOp :=
  match validateDeployRecipients o.recipients with
  | some e => (⟨some (DeployError.validation e), none⟩, [])
  | none =>
    match buildDeployParamsAsync vaultOf clankerAddress o with
    | (Except.error msg, trace) => (⟨some (DeployError.caught msg), none⟩, trace)
    | (Except.ok b, trace) =>
      match write with
      | Except.error msg =>
          (⟨some (DeployError.caught msg), none⟩, trace ++ [NetOp.contractWrite])
      | Except.ok _ => (⟨none, some b⟩, trace ++ [NetOp.contractWrite])

/-- When every factory read succeeds and resolves preference `q` to `f q`,
the resolution loop returns the mapped address list and issues exactly one
read per list element. -/
theorem resolveVaults_of_ok (vaultOf : Nat → Nat → FeePreference → Except String Nat)
    (c p : Nat) (f : FeePreference → Nat)
    (hf : ∀ q, vaultOf c p q = Except.ok (f q)) :
    ∀ ps : List FeePreference,
      resolveVaults vaultOf c p ps =
        (Except.ok (ps.map f), ps.map (fun q => NetOp.vaultRead c p q))
  | [] => rfl
  | q :: ps => by
    simp [resolveVaults, hf q, resolveVaults_of_ok vaultOf c p f hf ps, Except.map]

/-- When every factory read succeeds, `buildDeployParamsAsync` returns the
fully resolved record and a trace of one vault read per recipient
preference, in recipient order. -/
theorem buildDeployParamsAsync_of_ok
    (vaultOf : Nat → Nat → FeePreference → Except String Nat)
    (f : FeePreference → Nat) (clankerAddress : Nat) (o : DeployOptions)
    (hf : ∀ q, vaultOf clankerAddress (effPairedToken o) q = Except.ok (f q)) :
    buildDeployParamsAsync vaultOf clankerAddress o =
      (Except.ok
        { lockerConfig :=
          { rewardAdmins := (recipientPrefs o).map f
            rewardRecipients := (recipientPrefs o).map f
            rewardBps := o.recipients.map (fun r => r.bps)
            tickLower := (effPositions o).map (fun p => p.tickLower)
            tickUpper := (effPositions o).map (fun p => p.tickUpper)
            positionBps := (effPositions o).map (fun p => p.positionBps)
            lockerFeePreferences := recipientPrefs o }
          shareRecipients := o.recipients.map (fun r => r.recipient) },
       (recipientPrefs o).map
         (fun q => NetOp.vaultRead clankerAddress (effPairedToken o) q)) := by
  simp only [buildDeployParamsAsync]
  rw [resolveVaults_of_ok vaultOf clankerAddress (effPairedToken o) f hf]

/-- Claim C1: in the record built for the deploy call, every recipient's
reward-admin and reward-recipient entry is the vault address resolved for
that recipient's own fee preference — a function of the preference alone,
not of the end-user recipient or admin addresses — while the separate
`shareRecipients` list is exactly the end-user recipient addresses in
recipient order. -/
theorem buildDeploy_reward_fields_reference_vaults
    (vaultOf : Nat → Nat → FeePreference → Except String Nat)
    (f : FeePreference → Nat) (clankerAddress : Nat) (o : DeployOptions)
    (hf : ∀ q, vaultOf clankerAddress (effPairedToken o) q = Except.ok (f q)) :
    ∃ b, (buildDeployParamsAsync vaultOf clankerAddress o).1 = Except.ok b ∧
      b.lockerConfig.rewardAdmins =
        o.recipients.map (fun r => f (tokenTypeToFeePreference r.token)) ∧
      b.lockerConfig.rewardRecipients =
        o.recipients.map (fun r => f (tokenTypeToFeePreference r.token)) ∧
      b.shareRecipients = o.recipients.map (fun r => r.recipient) := by
  rw [buildDeployParamsAsync_of_ok vaultOf f clankerAddress o hf]
  exact ⟨_, rfl, by simp [recipientPrefs, List.map_map],
         by simp [recipientPrefs, List.map_map], rfl⟩

/-- A two-recipient reward list in which both recipients share the fee
preference Both. -/
def oTwoSamePref : DeployOptions :=
  { recipients := [⟨11, 11, 5000, TokenType.Both⟩, ⟨22, 22, 5000, TokenType.Both⟩]
    positions := none
    pairedToken := none
    tickIfToken0IsClanker := none }

/-- A factory-read collaborator that resolves every vault to address 99. -/
def vaultOfConst : Nat → Nat → FeePreference → Except String Nat :=
  fun _ _ _ => Except.ok 99

/-- Claim C1 witness: concrete two-recipient build with a constant resolver. -/
theorem buildDeploy_reward_fields_reference_vaults_witness :
    ∃ b, (buildDeployParamsAsync vaultOfConst 5 oTwoSamePref).1 = Except.ok b ∧
      b.lockerConfig.rewardAdmins =
        oTwoSamePref.recipients.map (fun _ => (99 : Nat)) ∧
      b.lockerConfig.rewardRecipients =
        oTwoSamePref.recipients.map (fun _ => (99 : Nat)) ∧
      b.shareRecipients = oTwoSamePref.recipients.map (fun r => r.recipient) :=
  buildDeploy_reward_fields_reference_vaults vaultOfConst (fun _ => 99) 5
    oTwoSamePref (fun _ => rfl)

/-- The number of vault-address factory reads in a network trace that were
issued for the given fee preference. -/
def vaultReadCountFor (trace : List NetOp) (p : FeePreference) : Nat :=
  (trace.filter (fun op =>
    match op with
    | NetOp.vaultRead _ _ q => decide (q = p)
    | NetOp.contractWrite => false)).length

/-- Claim C3 counterexample: for two recipients sharing the preference Both,
building the deployment issues two vault-address reads for that preference,
not exactly one — the loop reads once per recipient, not once per distinct
preference. -/
theorem vault_reads_per_recipient_counterexample :
    vaultReadCountFor
        ((buildDeployParamsAsync vaultOfConst 5 oTwoSamePref).2)
        FeePreference.Both = 2 ∧
    ¬ vaultReadCountFor
        ((buildDeployParamsAsync vaultOfConst 5 oTwoSamePref).2)
        FeePreference.Both = 1 := by
  decide

/-- Claim C3 (amended): building a deployment performs exactly one
vault-address factory read per recipient (so recipients sharing a fee
preference trigger repeated reads with identical arguments rather than a
single shared read), and recipients sharing a preference still receive the
identical resolved vault address in both reward fields of the built
record. -/
theorem buildDeploy_one_read_per_recipient
    (vaultOf : Nat → Nat → FeePreference → Except String Nat)
    (f : FeePreference → Nat) (clankerAddress : Nat) (o : DeployOptions)
    (hf : ∀ q, vaultOf clankerAddress (effPairedToken o) q = Except.ok (f q)) :
    (buildDeployParamsAsync vaultOf clankerAddress o).2.length =
      o.recipients.length ∧
    ∃ b, (buildDeployParamsAsync vaultOf clankerAddress o).1 = Except.ok b ∧
      ∀ (i j : Nat) (r r' : RewardRecipient),
        o.recipients[i]? = some r → o.recipients[j]? = some r' →
        r.token = r'.token →
        b.lockerConfig.rewardAdmins[i]? = b.lockerConfig.rewardAdmins[j]? ∧
        b.lockerConfig.rewardRecipients[i]? =
          b.lockerConfig.rewardRecipients[j]? := by
  rw [buildDeployParamsAsync_of_ok vaultOf f clankerAddress o hf]
  constructor
  · simp [recipientPrefs]
  · refine ⟨_, rfl, ?_⟩
    intro i j r r' hi hj htok
    have hmap : ((recipientPrefs o).map f)[i]? = ((recipientPrefs o).map f)[j]? := by
      simp [recipientPrefs, List.map_map, List.getElem?_map, hi, hj, htok]
    exact ⟨hmap, hmap⟩

/-- Claim C3 (amended) witness: the concrete two-recipient build issues two
reads and resolves both entries identically. -/
theorem buildDeploy_one_read_per_recipient_witness :
    (buildDeployParamsAsync vaultOfConst 5 oTwoSamePref).2.length =
      oTwoSamePref.recipients.length ∧
    ∃ b, (buildDeployParamsAsync vaultOfConst 5 oTwoSamePref).1 = Except.ok b ∧
      ∀ (i j : Nat) (r r' : RewardRecipient),
        oTwoSamePref.recipients[i]? = some r →
        oTwoSamePref.recipients[j]? = some r' →
        r.token = r'.token →
        b.lockerConfig.rewardAdmins[i]? = b.lockerConfig.rewardAdmins[j]? ∧
        b.lockerConfig.rewardRecipients[i]? =
          b.lockerConfig.rewardRecipients[j]? :=
  buildDeploy_one_read_per_recipient vaultOfConst (fun _ => 99) 5 oTwoSamePref
    (fun _ => rfl)

/-- The lowest `tickLower` across a list of liquidity positions. -/
def lowestTickLower : List PoolPosition → Option Int
  | [] => none
  | p :: ps =>
    match lowestTickLower ps with
    | none => some p.tickLower
    | some m => some (min p.tickLower m)

/-- A deployment intent with custom liquidity positions whose configured
starting tick (50) is above the lowest tickLower (-100). -/
def oBadGeometry : DeployOptions :=
  { recipients := [⟨11, 11, 10000, TokenType.Both⟩]
    positions := some [⟨-100, 100, 10000⟩]
    pairedToken := none
    tickIfToken0IsClanker := some 50 }

/-- Claim C6 counterexample: an intent whose starting tick (50) is greater
than the lowest tickLower (-100) is not rejected with any pool-geometry
error — validation passes, the deploy proceeds, and the built record
(carrying the offending positions unchanged) is submitted. -/
theorem no_pool_geometry_check_counterexample :
    startingTick oBadGeometry = 50 ∧
    lowestTickLower (effPositions oBadGeometry) = some (-100) ∧
    ((50 : Int) > -100) ∧
    (deployWithTokenizedFees vaultOfConst (Except.ok 1) 5 oBadGeometry).1.error =
      none ∧
    (deployWithTokenizedFees vaultOfConst (Except.ok 1) 5 oBadGeometry).1.submitted =
      some
        { lockerConfig :=
          { rewardAdmins := [99]
            rewardRecipients := [99]
            rewardBps := [10000]
            tickLower := [-100]
            tickUpper := [100]
            positionBps := [10000]
            lockerFeePreferences := [FeePreference.Both] }
          shareRecipients := [11] } := by
  decide

/-- Claim C6 (amended): the SDK performs no pool-geometry validation at all —
whenever the recipient checks pass and the network collaborators succeed,
the deployment proceeds and the built record carries the supplied custom
positions unchanged, regardless of their position-bps sum, tick ordering,
or the relation between the starting tick and the lowest tickLower. -/
theorem deploy_accepts_any_pool_geometry
    (vaultOf : Nat → Nat → FeePreference → Except String Nat)
    (f : FeePreference → Nat) (write : Except String Nat) (tx : Nat)
    (clankerAddress : Nat) (o : DeployOptions)
    (hv : validateDeployRecipients o.recipients = none)
    (hf : ∀ q, vaultOf clankerAddress (effPairedToken o) q = Except.ok (f q))
    (hw : write = Except.ok tx) :
    (deployWithTokenizedFees vaultOf write clankerAddress o).1.error = none ∧
    ∃ b, (deployWithTokenizedFees vaultOf write clankerAddress o).1.submitted =
        some b ∧
      b.lockerConfig.tickLower = (effPositions o).map (fun p => p.tickLower) ∧
      b.lockerConfig.tickUpper = (effPositions o).map (fun p => p.tickUpper) ∧
      b.lockerConfig.positionBps =
        (effPositions o).map (fun p => p.positionBps) := by
  unfold deployWithTokenizedFees
  rw [hv, buildDeployParamsAsync_of_ok vaultOf f clankerAddress o hf, hw]
  exact ⟨rfl, _, rfl, rfl, rfl, rfl⟩

/-- Claim C6 (amended) witness: the geometry-violating intent above deploys
successfully and its positions pass through unchanged. -/
theorem deploy_accepts_any_pool_geometry_witness :
    (deployWithTokenizedFees vaultOfConst (Except.ok 1) 5 oBadGeometry).1.error =
      none ∧
    ∃ b,
      (deployWithTokenizedFees vaultOfConst (Except.ok 1) 5
          oBadGeometry).1.submitted = some b ∧
      b.lockerConfig.tickLower =
        (effPositions oBadGeometry).map (fun p => p.tickLower) ∧
      b.lockerConfig.tickUpper =
        (effPositions oBadGeometry).map (fun p => p.tickUpper) ∧
      b.lockerConfig.positionBps =
        (effPositions oBadGeometry).map (fun p => p.positionBps) :=
  deploy_accepts_any_pool_geometry vaultOfConst (fun _ => 99) (Except.ok 1) 1 5
    oBadGeometry (by decide) (fun _ => rfl) rfl

/-- Claim C8: failures of `deployWithTokenizedFees` are returned in the
result's error field, never thrown.  (1) A validation failure is returned as
a typed result before any network operation — the network trace is empty.
(2) A failing vault read is caught and returned.  (3) A failing contract
write is caught and returned.  (4) The error field is `none` exactly when a
record was successfully submitted, so every failure path populates it. -/
theorem deploy_failures_returned_not_thrown
    (vaultOf : Nat → Nat → FeePreference → Except String Nat)
    (write : Except String Nat) (clankerAddress : Nat) (o : DeployOptions) :
    (∀ e, validateDeployRecipients o.recipients = some e →
        deployWithTokenizedFees vaultOf write clankerAddress o =
          (⟨some (DeployError.validation e), none⟩, [])) ∧
    (∀ msg trace, validateDeployRecipients o.recipients = none →
        buildDeployParamsAsync vaultOf clankerAddress o =
          (Except.error msg, trace) →
        deployWithTokenizedFees vaultOf write clankerAddress o =
          (⟨some (DeployError.caught msg), none⟩, trace)) ∧
    (∀ msg b trace, validateDeployRecipients o.recipients = none →
        buildDeployParamsAsync vaultOf clankerAddress o =
          (Except.ok b, trace) →
        write = Except.error msg →
        deployWithTokenizedFees vaultOf write clankerAddress o =
          (⟨some (DeployError.caught msg), none⟩,
           trace ++ [NetOp.contractWrite])) ∧
    ((deployWithTokenizedFees vaultOf write clankerAddress o).1.error = none ↔
      ∃ b, (deployWithTokenizedFees vaultOf write clankerAddress o).1.submitted =
        some b) := by
  refine ⟨?_, ?_, ?_, ?_⟩
  · intro e he
    simp [deployWithTokenizedFees, he]
  · intro msg trace hv hb
    simp [deployWithTokenizedFees, hv, hb]
  · intro msg b trace hv hb hw
    simp [deployWithTokenizedFees, hv, hb, hw]
  · unfold deployWithTokenizedFees
    cases hv : validateDeployRecipients o.recipients with
    | some e => simp
    | none =>
      rcases hb : buildDeployParamsAsync vaultOf clankerAddress o with ⟨r, trace⟩
      cases r with
      | error msg => simp
      | ok b =>
        cases write with
        | error msg => simp
        | ok tx => simp

/-- A single-recipient list whose bps sum to 5000 only. -/
def oBadSplit : DeployOptions :=
  { recipients := [⟨11, 11, 5000, TokenType.Both⟩]
    positions := none
    pairedToken := none
    tickIfToken0IsClanker := none }

/-- Claim C8 witness: the concrete invalid split is returned as a typed
validation error with an empty network trace. -/
theorem deploy_failures_returned_not_thrown_witness :
    deployWithTokenizedFees vaultOfConst (Except.ok 1) 5 oBadSplit =
      (⟨some (DeployError.validation (DeployValidationError.invalidSplit 5000)),
        none⟩, []) :=
  (deploy_failures_returned_not_thrown vaultOfConst (Except.ok 1) 5 oBadSplit).1
    (DeployValidationError.invalidSplit 5000) (by decide)

/-- The Clanker deployment version tag accepted by `initTokenization`
(`types.ts`: `version: 'v4' | 'v3.1.0'`). -/
inductive ClankerVersion where
  | v4
  | v3_1_0
  deriving DecidableEq, Repr

/-- The tokenizer contract selected by version (PoolFansTokenizer.ts:202). -/
def initTokenizerAddress : ClankerVersion → Nat
  | ClankerVersion.v4 => CONTRACTS_V4_TOKENIZER
  | ClankerVersion.v3_1_0 => CONTRACTS_V3_1_0_TOKENIZER

/-- The options of `initTokenization` (`types.ts`: `InitTokenizationOptions`);
`rewards.recipients` is flattened into `recipients`. -/
structure InitTokenizationOptions where
  clankerToken : Nat
  version : ClankerVersion
  recipients : List RewardRecipient
  deriving DecidableEq, Repr

/-- A recipient as formatted for the contract call, with the token preference
lowered to its uint8 value (PoolFansTokenizer.ts:206-211). -/
structure FormattedRecipient where
  recipient : Nat
  admin : Nat
  bps : Int
  token : Nat
  deriving DecidableEq, Repr

/-- `recipientsFormatted` entry construction (PoolFansTokenizer.ts:206). -/
def formatRecipient (r : RewardRecipient) : FormattedRecipient :=
  ⟨r.recipient, r.admin, r.bps, tokenTypeToUint8 r.token⟩

/-- The `writeContract` call `initTokenization` submits
(PoolFansTokenizer.ts:217-224): target tokenizer address, the clanker token,
and the formatted recipients. -/
structure InitWriteCall where
  address : Nat
  clankerToken : Nat
  recipients : List FormattedRecipient
  deriving DecidableEq, Repr

/-- The failure channel of `initTokenization`: the bps-sum validation error
(PoolFansTokenizer.ts:194-200) or a caught exception
(PoolFansTokenizer.ts:244-250). -/
inductive InitError where
  | invalidSplit (got : Int)
  | caught (msg : String)
  deriving DecidableEq, Repr

/-- `PoolFansTokenizer.initTokenization` (PoolFansTokenizer.ts:188-251).
Returns the error field of the result and the list of contract-write calls
actually issued (empty when validation fails before submission). -/
def initTokenization (write : Except String Nat) (o : InitTokenizationOptions) :
    Option InitError × List InitWriteCall :=
  let t := totalBps o.recipients
  if t ≠ 10000 then (some (InitError.invalidSplit t), [])
  else
    let call : InitWriteCall :=
      ⟨initTokenizerAddress o.version, o.clankerToken,
       o.recipients.map formatRecipient⟩
    match write with
    | Except.error msg => (some (InitError.caught msg), [call])
    | Except.ok _ => (none, [call])

/-- A TokenizationRequest with 8 recipients whose bps sum to 10000. -/
def oEightInit : InitTokenizationOptions :=
  ⟨77, ClankerVersion.v4, rsEightGoodSum⟩

/-- Claim C7 counterexample: a TokenizationRequest with 8 recipients (bps
sum 10000) is not rejected — `initTokenization` reports no error and issues
its contract write, so the recipient-count rule of the intent validator is
not applied here. -/
theorem init_eight_recipients_counterexample :
    oEightInit.recipients.length = 8 ∧
    (initTokenization (Except.ok 1) oEightInit).1 = none ∧
    (initTokenization (Except.ok 1) oEightInit).2 ≠ [] := by
  decide

/-- Claim C7 (amended): `initTokenization` validates only that the
recipients' bps sum to 10000; it performs no recipient-count check, so every
request whose bps sum to 10000 — including those with more than 7
recipients — passes validation and submits its contract call. -/
theorem init_only_checks_bps_sum (write : Except String Nat) (tx : Nat)
    (o : InitTokenizationOptions) (hsum : totalBps o.recipients = 10000)
    (hw : write = Except.ok tx) :
    (initTokenization write o).1 = none ∧
    (initTokenization write o).2 =
      [⟨initTokenizerAddress o.version, o.clankerToken,
        o.recipients.map formatRecipient⟩] := by
  simp [initTokenization, hsum, hw]

/-- Claim C7 (amended) witness: the 8-recipient request above passes
validation and submits. -/
theorem init_only_checks_bps_sum_witness :
    (initTokenization (Except.ok 1) oEightInit).1 = none ∧
    (initTokenization (Except.ok 1) oEightInit).2 =
      [⟨initTokenizerAddress oEightInit.version, oEightInit.clankerToken,
        oEightInit.recipients.map formatRecipient⟩] :=
  init_only_checks_bps_sum (Except.ok 1) 1 oEightInit (by decide) rfl

/-- The two core ABI value types occurring in `finalizeTokenization`. -/
inductive AbiCoreType where
  | address
  | uint256
  deriving DecidableEq, Repr

/-- A concrete argument passed through `writeContract`. -/
inductive AbiArg where
  | addr (a : Nat)
  | uint (n : Nat)
  deriving DecidableEq, Repr

/-- The ABI type of a concrete argument. -/
def abiArgType : AbiArg → AbiCoreType
  | AbiArg.addr _ => AbiCoreType.address
  | AbiArg.uint _ => AbiCoreType.uint256

/-- The options of `finalizeTokenization`
(`types.ts`: `FinalizeTokenizationOptions`). -/
structure FinalizeTokenizationOptions where
  pendingId : Nat
  clankerToken : Nat
  deriving DecidableEq, Repr

/-- A `writeContract` invocation as assembled by the SDK. -/
structure WriteContractCall where
  address : Nat
  functionName : String
  args : List AbiArg
  deriving DecidableEq, Repr

/-- The contract call `finalizeTokenization` submits
(PoolFansTokenizer.ts:266-273): note the argument list is
`[options.clankerToken, options.pendingId]` (PoolFansTokenizer.ts:270). -/
def finalizeTokenization (o : FinalizeTokenizationOptions) : WriteContractCall :=
  { address := CONTRACTS_V4_TOKENIZER
    functionName := "finalizeTokenization"
    args := [AbiArg.addr o.clankerToken, AbiArg.uint o.pendingId] }

/-- The declared inputs of the `finalizeTokenization` entry of
`V4_TOKENIZER_ABI` (constants.ts:207-218), in declaration order. -/
def finalizeAbiInputs : List (String × AbiCoreType) :=
  [("pendingId", AbiCoreType.uint256), ("clankerToken", AbiCoreType.address)]

/-- Claim C9: `finalizeTokenization` submits its call with the argument list
[clankerToken, pendingId] — token address first, pending handle second —
while the ABI entry it is encoded against declares its inputs in the order
(pendingId, clankerToken); the submitted argument types therefore do not
match the declared input types. -/
theorem finalize_arg_order_mismatches_abi (o : FinalizeTokenizationOptions) :
    (finalizeTokenization o).args =
      [AbiArg.addr o.clankerToken, AbiArg.uint o.pendingId] ∧
    finalizeAbiInputs.map Prod.snd =
      [AbiCoreType.uint256, AbiCoreType.address] ∧
    (finalizeTokenization o).args.map abiArgType ≠
      finalizeAbiInputs.map Prod.snd := by
  refine ⟨rfl, rfl, ?_⟩
  simp [finalizeTokenization, finalizeAbiInputs, abiArgType]

/-- A transaction receipt as delivered by `waitForTransactionReceipt`; its
content (status, event logs) is entirely ignored by the SDK's
`waitForTransaction` continuations. -/
structure TransactionReceipt where
  status : Bool
  logs : List (List Nat)
  deriving DecidableEq, Repr

/-- The zero address `0x0000000000000000000000000000000000000000`. -/
def ZERO_ADDRESS : Nat := 0

/-- The data returned by a successful deploy `waitForTransaction`
(`types.ts`: `DeployResultData`). -/
structure DeployResultData where
  tokenAddress : Nat
  vaultAddress : Nat
  sharesToken : Nat
  txHash : Nat
  deriving DecidableEq, Repr

/-- The data returned by a successful init `waitForTransaction`
(`types.ts`: `InitTokenizationResultData`). -/
structure InitTokenizationResultData where
  vaultAddress : Nat
  pendingId : Nat
  txHash : Nat
  deriving DecidableEq, Repr

/-- The data returned by a successful finalize `waitForTransaction`
(`types.ts`: `FinalizeTokenizationResultData`). -/
structure FinalizeTokenizationResultData where
  sharesToken : Nat
  txHash : Nat
  deriving DecidableEq, Repr

/-- The `waitForTransaction` continuation of `deployWithTokenizedFees`
(PoolFansTokenizer.ts:152-169) applied to a successfully confirmed receipt:
every address is the hardcoded placeholder (the log-parsing TODO at
PoolFansTokenizer.ts:159-161). -/
def deployWaitResult (txHash : Nat) (_receipt : TransactionReceipt) :
    DeployResultData :=
  { tokenAddress := ZERO_ADDRESS
    vaultAddress := ZERO_ADDRESS
    sharesToken := ZERO_ADDRESS
    txHash := txHash }

/-- The `waitForTransaction` continuation of `initTokenization`
(PoolFansTokenizer.ts:228-242). -/
def initWaitResult (txHash : Nat) (_receipt : TransactionReceipt) :
    InitTokenizationResultData :=
  { vaultAddress := ZERO_ADDRESS
    pendingId := 0
    txHash := txHash }

/-- The `waitForTransaction` continuation of `finalizeTokenization`
(PoolFansTokenizer.ts:277-288). -/
def finalizeWaitResult (txHash : Nat) (_receipt : TransactionReceipt) :
    FinalizeTokenizationResultData :=
  { sharesToken := ZERO_ADDRESS
    txHash := txHash }

/-- Claim C10: whenever `waitForTransaction` resolves successfully on any of
the three flows, every returned address field is the zero address and the
returned pendingId is 0, regardless of the confirmed receipt's status or
logs. -/
theorem wait_results_are_placeholder_zeros (txHash : Nat)
    (receipt : TransactionReceipt) :
    deployWaitResult txHash receipt =
      { tokenAddress := ZERO_ADDRESS, vaultAddress := ZERO_ADDRESS,
        sharesToken := ZERO_ADDRESS, txHash := txHash } ∧
    initWaitResult txHash receipt =
      { vaultAddress := ZERO_ADDRESS, pendingId := 0, txHash := txHash } ∧
    finalizeWaitResult txHash receipt =
      { sharesToken := ZERO_ADDRESS, txHash := txHash } :=
  ⟨rfl, rfl, rfl⟩

/-- A byte string: each element is one byte. -/
abbrev Bytes := List Nat

/-- The fixed token supply, 100 billion tokens with 18 decimals
(PoolFansTokenizer.ts:596). -/
def CLANKER_SUPPLY : Nat := 100000000000000000000000000000

/-- The last `n` bytes of a byte string. -/
def lastBytes (n : Nat) (bs : Bytes) : Bytes := bs.drop (bs.length - n)

/-- viem `getCreate2Address` (PoolFansTokenizer.ts:616): bytes 12..31 of
keccak256(0xff ++ from ++ salt ++ bytecodeHash).  `keccak` abstracts the
keccak256 digest function. -/
def getCreate2Address (keccak : Bytes → Bytes)
    (fr salt bytecodeHash : Bytes) : Bytes :=
  (keccak (0xff :: (fr ++ salt ++ bytecodeHash))).drop 12

/-- The canonical ABI encoding of the pair `(address, bytes32)`
(`encodeAbiParameters(parseAbiParameters('address, bytes32'), ...)`,
PoolFansTokenizer.ts:608-613): the 20-byte address left-padded with 12 zero
bytes to a 32-byte word, followed by the 32-byte word. -/
def abiEncodeAddressBytes32 (addr nonce : Bytes) : Bytes :=
  (List.replicate 12 0 ++ addr) ++ nonce

/-- viem `encodeDeployData` (PoolFansTokenizer.ts:599): the deployment init
code is the contract bytecode followed by the ABI-encoded constructor
arguments. -/
def encodeDeployData (bytecode ctorArgs : Bytes) : Bytes := bytecode ++ ctorArgs

/-- `PoolFansTokenizer.computeClankerAddress` (PoolFansTokenizer.ts:586-621).
`keccak` abstracts keccak256; `encodeCtorArgs` abstracts the ABI encoding of
the Clanker token constructor arguments (name, symbol, supply, admin, image,
metadata, context, originating chain id) against `CLANKER_TOKEN_ABI`;
`bytecode` and `deployer` stand for the `CLANKER_TOKEN_BYTECODE` and
`CLANKER_DEPLOYER` constants of the evolved constants module absent from
`src/`. -/
def computeClankerAddress (keccak : Bytes → Bytes)
    (encodeCtorArgs :
      String → String → Nat → Bytes → String → String → String → Nat → Bytes)
    (bytecode deployer : Bytes)
    (name symbol : String) (tokenAdmin : Bytes)
    (image metadata context : String)
    (originatingChainId : Nat) (randomSalt : Bytes) : Bytes :=
  let supply := CLANKER_SUPPLY
  let deployData := encodeDeployData bytecode
    (encodeCtorArgs name symbol supply tokenAdmin image metadata context
      originatingChainId)
  let initCodeHash := keccak deployData
  let computedSalt := keccak (abiEncodeAddressBytes32 tokenAdmin randomSalt)
  getCreate2Address keccak deployer computedSalt initCodeHash

/-- Modelled from the spec (section 4.2): the standard deterministic-creation
formula — the address is the last 20 bytes of
hash(0xff ++ deployerAddress ++ salt ++ initCodeHash). -/
def specPredictDeployAddress (keccak : Bytes → Bytes)
    (deployer salt initCodeHash : Bytes) : Bytes :=
  lastBytes 20 (keccak (0xff :: (deployer ++ salt ++ initCodeHash)))

/-- Claim C2: for every name, symbol, admin, image, metadata, context, chain
id and random nonce, the predicted token address equals the standard
deterministic-creation formula, where salt = keccak256 of the ABI encoding
of (admin, nonce) and initCodeHash = keccak256 of the token's deployment
init code (bytecode ++ encoded constructor arguments); and the function is
pure — identical inputs yield the identical address.  The hypothesis states
that the digest function produces 32-byte digests, which is what makes
"drop the first 12 bytes" equal to "take the last 20 bytes". -/
theorem computeClankerAddress_create2_formula (keccak : Bytes → Bytes)
    (encodeCtorArgs :
      String → String → Nat → Bytes → String → String → String → Nat → Bytes)
    (bytecode deployer : Bytes)
    (name symbol : String) (tokenAdmin : Bytes)
    (image metadata context : String)
    (originatingChainId : Nat) (randomSalt : Bytes)
    (hkec : ∀ bs, (keccak bs).length = 32) :
    computeClankerAddress keccak encodeCtorArgs bytecode deployer name symbol
        tokenAdmin image metadata context originatingChainId randomSalt =
      specPredictDeployAddress keccak deployer
        (keccak (abiEncodeAddressBytes32 tokenAdmin randomSalt))
        (keccak (encodeDeployData bytecode
          (encodeCtorArgs name symbol CLANKER_SUPPLY tokenAdmin image metadata
            context originatingChainId))) ∧
    computeClankerAddress keccak encodeCtorArgs bytecode deployer name symbol
        tokenAdmin image metadata context originatingChainId randomSalt =
      computeClankerAddress keccak encodeCtorArgs bytecode deployer name symbol
        tokenAdmin image metadata context originatingChainId randomSalt := by
  refine ⟨?_, rfl⟩
  simp [computeClankerAddress, specPredictDeployAddress, getCreate2Address,
    lastBytes, hkec]

/-- A stand-in digest function returning a fixed 32-byte digest. -/
def keccakStub : Bytes → Bytes := fun _ => List.replicate 32 0

/-- A stand-in constructor-argument encoder. -/
def ctorArgsStub :
    String → String → Nat → Bytes → String → String → String → Nat → Bytes :=
  fun _ _ _ _ _ _ _ _ => [7]

/-- Claim C2 witness: the formula instantiated at concrete inputs. -/
theorem computeClankerAddress_create2_formula_witness :
    computeClankerAddress keccakStub ctorArgsStub [1] [2] "N" "S" [3] "i" "m"
        "c" 8453 [4] =
      specPredictDeployAddress keccakStub [2]
        (keccakStub (abiEncodeAddressBytes32 [3] [4]))
        (keccakStub (encodeDeployData [1]
          (ctorArgsStub "N" "S" CLANKER_SUPPLY [3] "i" "m" "c" 8453))) ∧
    computeClankerAddress keccakStub ctorArgsStub [1] [2] "N" "S" [3] "i" "m"
        "c" 8453 [4] =
      computeClankerAddress keccakStub ctorArgsStub [1] [2] "N" "S" [3] "i" "m"
        "c" 8453 [4] :=
  computeClankerAddress_create2_formula keccakStub ctorArgsStub [1] [2] "N" "S"
    [3] "i" "m" "c" 8453 [4] (fun _ => by simp [keccakStub])

end PoolFans
